import Mathlib

/-!
Verification development for the harmonic installer's Action framework.
Each definition is a shallow embedding of one function of the source tree
(file and function named in its doc comment); theorems check the
natural-language specification against these embeddings.
-/

namespace Harmonic

/-- Modelled from the spec: `ActionState` (spec section 3; its defining module
`src/action/mod.rs` is not in the provided source tree, but all provided
actions match on exactly these three constructors). -/
inductive ActionState
  | Uncompleted
  | Progress
  | Completed
deriving DecidableEq, Repr

/-- Parsed `diskutil info -plist` output, as consumed by
`EnableOwnership::execute` (`src/action/darwin/enable_ownership.rs`); the
field deserializes the `GlobalPermissionsEnabled` property-list key. -/
structure DiskUtilOutput where
  global_permissions_enabled : Bool
deriving DecidableEq, Repr

/-- `EnableOwnership` action data (`src/action/darwin/enable_ownership.rs`). -/
structure EnableOwnership where
  path : String
  action_state : ActionState
deriving DecidableEq, Repr

/-- A `diskutil` invocation made by `EnableOwnership::execute`. -/
inductive DiskutilCmd
  | infoPlist (path : String)
  | enableOwnership (path : String)
deriving DecidableEq, Repr

/-- `EnableOwnership::plan` (`src/action/darwin/enable_ownership.rs`, lines
22-29): records the path with state `Uncompleted`. -/
def EnableOwnership.plan (path : String) : EnableOwnership :=
  { path := path, action_state := ActionState.Uncompleted }

/-- `EnableOwnership::execute` (`src/action/darwin/enable_ownership.rs`, lines
49-85). The parsed plist of the `diskutil info -plist` call is passed in as
`plist`. Returns the `diskutil` invocations made and the action afterwards.
The source computes `should_enable_ownership = the_plist.global_permissions_enabled`
with no negation and runs `diskutil enableOwnership` only when that is true. -/
def EnableOwnership.execute (self : EnableOwnership) (plist : DiskUtilOutput) :
    List DiskutilCmd × EnableOwnership :=
  if self.action_state = ActionState.Completed then
    ([], self)
  else
    let infoCmds := [DiskutilCmd.infoPlist self.path]
    let cmds :=
      if plist.global_permissions_enabled then
        infoCmds ++ [DiskutilCmd.enableOwnership self.path]
      else
        infoCmds
    (cmds, { self with action_state := ActionState.Completed })

/-- `EnableOwnership::revert` (`src/action/darwin/enable_ownership.rs`, lines
98-112): if the state is `Uncompleted` it returns unchanged; otherwise it
performs no effect and then writes `ActionState::Completed` into the state
(line 110 of the source assigns `Completed`, not `Uncompleted`). -/
def EnableOwnership.revert (self : EnableOwnership) : EnableOwnership :=
  if self.action_state = ActionState.Uncompleted then
    self
  else
    { self with action_state := ActionState.Completed }

/-- Host operating system as discriminated by `target_lexicon::OperatingSystem::host()`
in the source's `match` arms: the two mac arms versus everything else. -/
inductive OperatingSystem
  | macOSX (major minor patch : Nat)
  | darwin
  | linux
  | otherOs
deriving DecidableEq, Repr

/-- The mac arms of the source's `match OperatingSystem::host()` expressions
(`MacOSX { .. } | Darwin`). -/
def OperatingSystem.isMac : OperatingSystem → Bool
  | OperatingSystem.macOSX _ _ _ => true
  | OperatingSystem.darwin => true
  | _ => false

/-- `CreateGroup` action data (`src/action/base/create_group.rs`). -/
structure CreateGroup where
  name : String
  gid : Nat
  action_state : ActionState
deriving DecidableEq, Repr

/-- `CreateGroup::plan` (`src/action/base/create_group.rs`, lines 17-26): it
only records `name` and `gid` with state `Uncompleted`; it probes nothing,
cannot fail, and takes no host input. -/
def CreateGroup.plan (name : String) (gid : Nat) : CreateGroup :=
  { name := name, gid := gid, action_state := ActionState.Uncompleted }

/-- A subprocess invocation made by `CreateGroup::revert`. -/
inductive GroupCmd
  | groupdel (name : String)
deriving DecidableEq, Repr

/-- `CreateGroup::revert` (`src/action/base/create_group.rs`, lines 133-174):
no-op when `Uncompleted`; otherwise on mac a logged no-op, on other hosts a
`groupdel` invocation; in both non-guard branches the state is then set to
`Uncompleted` (line 172). Returns the invocations made and the action after. -/
def CreateGroup.revert (os : OperatingSystem) (self : CreateGroup) :
    List GroupCmd × CreateGroup :=
  if self.action_state = ActionState.Uncompleted then
    ([], self)
  else
    let cmds := if os.isMac then [] else [GroupCmd.groupdel self.name]
    (cmds, { self with action_state := ActionState.Uncompleted })

/-- A host group database entry `(name, gid)`, used to state claims about
planning against an existing host; `CreateGroup::plan` receives no such
input in the source. -/
def groupExists (host : List (String × Nat)) (name : String) (gid : Nat) : Bool :=
  host.contains (name, gid)

/-- Rust `str::split(' ')` over a character list: splits at every single
space, keeping empty pieces, as used on `nix.conf` values in
`CreateOrMergeNixConfig::plan` (`src/action/base/create_or_merge_nix_config.rs`,
lines 96-97). -/
def splitTokensAux : List Char → List Char → List String
  | [], cur => [String.mk cur.reverse]
  | c :: rest, cur =>
    if c = ' ' then String.mk cur.reverse :: splitTokensAux rest []
    else splitTokensAux rest (c :: cur)

/-- Rust `value.split(' ').collect::<Vec<_>>()` on a config value string. -/
def splitTokens (s : String) : List String :=
  splitTokensAux s.data []

/-- Rust `Vec::dedup`: removes only consecutive repeated elements
(`src/action/base/create_or_merge_nix_config.rs`, line 113). -/
def dedupConsecutive : List String → List String
  | [] => []
  | [a] => [a]
  | a :: b :: rest =>
    if a = b then dedupConsecutive (b :: rest)
    else a :: dedupConsecutive (b :: rest)

/-- The merged value computed for a mergeable key in
`CreateOrMergeNixConfig::plan` (`src/action/base/create_or_merge_nix_config.rs`,
lines 108-114): pending tokens, then existing tokens, `Vec::dedup`,
joined with single spaces. -/
def mergeConfValue (pending existing : String) : String :=
  String.intercalate " " (dedupConsecutive (splitTokens pending ++ splitTokens existing))

/-- `MERGEABLE_CONF_NAMES` (`src/action/base/create_or_merge_nix_config.rs`,
line 18). -/
def MERGEABLE_CONF_NAMES : List String := ["experimental-features"]

/-- `NIX_CONF_MODE` (`src/action/base/create_or_merge_nix_config.rs`, line 19). -/
def NIX_CONF_MODE : Nat := 0o644

/-- What the filesystem holds at the target path when it exists, as probed by
`CreateOrMergeNixConfig::plan`: `metadata().is_file()`, the permission mode,
and the result of the external `NixConfig::parse_file` collaborator
(`none` models a parse error; a `NixConfig` is its ordered settings list). -/
structure FileOnDisk where
  is_file : Bool
  mode : Nat
  parsed : Option (List (String × String))
deriving DecidableEq, Repr

/-- The `ActionError` variants produced by `CreateOrMergeNixConfig::plan`
(`src/action/base/create_or_merge_nix_config.rs`, lines 62-137). -/
inductive NixConfigPlanError
  | PathWasNotFile
  | PathModeMismatch (discovered expected : Nat)
  | ParseNixConfig
  | UnmergeableConfig (keys : List String)
deriving DecidableEq, Repr

/-- The per-key merge loop of `CreateOrMergeNixConfig::plan`
(`src/action/base/create_or_merge_nix_config.rs`, lines 92-128): folds over
the pending settings, accumulating the merged settings and the unmergeable
key names in encounter order. -/
def processPendings (existing : List (String × String))
    (pendings : List (String × String)) :
    List (String × String) × List String :=
  pendings.foldl
    (fun acc kv =>
      match existing.lookup kv.1 with
      | some existingValue =>
        if (splitTokens kv.2).all (fun t => (splitTokens existingValue).contains t) then
          acc
        else if MERGEABLE_CONF_NAMES.contains kv.1 then
          (acc.1 ++ [(kv.1, mergeConfValue kv.2 existingValue)], acc.2)
        else
          (acc.1, acc.2 ++ [kv.1])
      | none => (acc.1 ++ [kv], acc.2))
    ([], [])

/-- `CreateOrMergeNixConfig::plan`
(`src/action/base/create_or_merge_nix_config.rs`, lines 49-163). `file` is
`none` when `path.exists()` is false. Planning only reads the filesystem; it
returns either an error or the initial `ActionState` together with the
computed `merged_nix_config` settings. -/
def CreateOrMergeNixConfig.plan (file : Option FileOnDisk)
    (pendings : List (String × String)) :
    Except NixConfigPlanError (ActionState × List (String × String)) :=
  match file with
  | some f =>
    if f.is_file = false then
      Except.error NixConfigPlanError.PathWasNotFile
    else if (f.mode &&& 0o777) ≠ NIX_CONF_MODE then
      Except.error (NixConfigPlanError.PathModeMismatch (f.mode &&& 0o777) NIX_CONF_MODE)
    else
      match f.parsed with
      | none => Except.error NixConfigPlanError.ParseNixConfig
      | some existing =>
        let merged := processPendings existing pendings
        if merged.2 ≠ [] then
          Except.error (NixConfigPlanError.UnmergeableConfig merged.2)
        else if merged.1 ≠ [] then
          Except.ok (ActionState.Uncompleted, merged.1)
        else
          Except.ok (ActionState.Completed, [])
  | none => Except.ok (ActionState.Uncompleted, pendings)

/-- The data of an existing receipt (`InstallPlan`) that
`Install::execute` consults (`src/cli/subcommand/install.rs`, lines 80-95):
the planner's typetag name, its settings map, and the per-action states. -/
structure ReceiptModel where
  planner_tag : String
  planner_settings : List (String × String)
  action_states : List ActionState
deriving DecidableEq, Repr

/-- The planner chosen on the `install` command line, reduced to the data the
compatibility check compares. -/
structure ChosenPlanner where
  planner_tag : String
  planner_settings : List (String × String)
deriving DecidableEq, Repr

/-- How `Install::execute` starts: the three early
`return Ok(ExitCode::FAILURE)` refusals (no plan is built or executed),
resuming the existing receipt, or planning fresh when no receipt exists. -/
inductive InstallStart
  | refuseDifferentPlanner
  | refuseDifferentSettings
  | refuseAlreadyCompleted
  | resume (r : ReceiptModel)
  | planFresh
deriving DecidableEq, Repr

/-- Whether an `InstallStart` is one of the three refusals; a refusal models
`return Ok(ExitCode::FAILURE)` before any action is executed. -/
def InstallStart.isRefusal : InstallStart → Bool
  | InstallStart.refuseDifferentPlanner => true
  | InstallStart.refuseDifferentSettings => true
  | InstallStart.refuseAlreadyCompleted => true
  | _ => false

/-- The receipt-compatibility check of `Install::execute` for a chosen
planner (`src/cli/subcommand/install.rs`, lines 76-99): compare typetag
names, then settings, then whether every receipt action is `Completed`;
otherwise resume the existing receipt. -/
def installStartDecision (existing : Option ReceiptModel) (chosen : ChosenPlanner) :
    InstallStart :=
  match existing with
  | some r =>
    if r.planner_tag ≠ chosen.planner_tag then
      InstallStart.refuseDifferentPlanner
    else if r.planner_settings ≠ chosen.planner_settings then
      InstallStart.refuseDifferentSettings
    else if r.action_states.all (fun s => s = ActionState.Completed) = true then
      InstallStart.refuseAlreadyCompleted
    else
      InstallStart.resume r
  | none => InstallStart.planFresh

/-- How `Install::execute` leaves the process after a forward-install
failure: `Ok(ExitCode::SUCCESS)`, `Ok(ExitCode::FAILURE)`, returning `Err`
(rendered and exited non-zero by the caller), or the external
`interaction::clean_exit_with_message` helper (its exit code is outside the
provided sources and not modelled). -/
inductive CliExit
  | okSuccess
  | okFailure
  | errReturn
  | cleanExitMessage
deriving DecidableEq, Repr

/-- True exactly for the modelled non-zero process exits (`okFailure`,
`errReturn`). -/
def CliExit.exitsNonzero : CliExit → Bool
  | CliExit.okFailure => true
  | CliExit.errReturn => true
  | _ => false

/-- What the failure path of `Install::execute` did: whether the user was
prompted, whether `install_plan.uninstall` was invoked, and how the process
exited. -/
structure FailureHandling where
  prompted : Bool
  reverted : Bool
  exit : CliExit
deriving DecidableEq, Repr

/-- The `Err` arm of `match install_plan.install(rx1).await`
(`src/cli/subcommand/install.rs`, lines 160-232). With `no_confirm` false it
prompts; a decline calls the clean-exit helper, a confirmation runs
`uninstall` whose success falls through to `Ok(ExitCode::SUCCESS)` and whose
failure yields `Ok(ExitCode::FAILURE)` (expected error) or `Err`. With
`no_confirm` true it never prompts and never uninstalls: it yields
`Ok(ExitCode::FAILURE)` when the error is expected and `Err` otherwise. -/
def handleInstallFailure (no_confirm err_expected user_confirms_revert
    uninstall_succeeds uninstall_err_expected : Bool) : FailureHandling :=
  if no_confirm = false then
    if user_confirms_revert = false then
      { prompted := true, reverted := false, exit := CliExit.cleanExitMessage }
    else if uninstall_succeeds then
      { prompted := true, reverted := true, exit := CliExit.okSuccess }
    else if uninstall_err_expected then
      { prompted := true, reverted := true, exit := CliExit.okFailure }
    else
      { prompted := true, reverted := true, exit := CliExit.errReturn }
  else
    if err_expected then
      { prompted := false, reverted := false, exit := CliExit.okFailure }
    else
      { prompted := false, reverted := false, exit := CliExit.errReturn }

/-- The child actions owned by `CreateNixVolume`
(`src/action/macos/create_nix_volume.rs`, struct fields lines 27-36). -/
inductive VolumeChild
  | syntheticConf
  | syntheticObjects
  | unmountVolume
  | createVolume
  | fstabEntry
  | encryptVolume
  | volumeDaemon
  | bootstrapVolume
  | kickstartService
  | enableOwnershipChild
deriving DecidableEq, Repr

/-- The order in which `CreateNixVolume::execute` invokes
`try_execute` on its children (`src/action/macos/create_nix_volume.rs`,
lines 202-233); the encrypt child participates only when `encrypt` is set,
and the `diskutil info /nix` poll between kickstart and enable-ownership is
not a child. -/
def CreateNixVolume.executeChildOrder (encrypt : Bool) : List VolumeChild :=
  [VolumeChild.syntheticConf, VolumeChild.syntheticObjects, VolumeChild.unmountVolume,
   VolumeChild.createVolume, VolumeChild.fstabEntry]
  ++ (if encrypt then [VolumeChild.encryptVolume] else [])
  ++ [VolumeChild.volumeDaemon, VolumeChild.bootstrapVolume,
      VolumeChild.kickstartService, VolumeChild.enableOwnershipChild]

/-- The order in which `CreateNixVolume::revert` invokes `try_revert` on its
children (`src/action/macos/create_nix_volume.rs`, lines 268-282): note that
`unmount_volume` is reverted before `create_volume`, and the synthetic.conf
line before the synthetic objects — the source comments the last pair with
"Purposefully not reversed". -/
def CreateNixVolume.revertChildOrder (encrypt : Bool) : List VolumeChild :=
  [VolumeChild.enableOwnershipChild, VolumeChild.kickstartService,
   VolumeChild.bootstrapVolume, VolumeChild.volumeDaemon]
  ++ (if encrypt then [VolumeChild.encryptVolume] else [])
  ++ [VolumeChild.fstabEntry, VolumeChild.unmountVolume, VolumeChild.createVolume,
      VolumeChild.syntheticConf, VolumeChild.syntheticObjects]

/-- Exchanges the elements at positions `i` and `i+1` of a list, leaving it
unchanged when `i+1` is out of range. -/
def swapAt {α : Type _} : List α → Nat → List α
  | a :: b :: rest, 0 => b :: a :: rest
  | a :: rest, Nat.succ n => a :: swapAt rest n
  | l, _ => l

/-- A child action of `PlaceNixConfiguration`
(`src/action/common/place_nix_configuration.rs`). The
`createOrMergeNixConfig` constructor exists only to state what the spec
claims the second child is; the source plans a `CreateFile`. -/
inductive PlaceNixChild
  | createDirectory (path : String) (mode : Nat) (force : Bool)
  | createFile (path : String) (mode : Nat) (buf : String)
  | createOrMergeNixConfig (path : String) (settings : List (String × String))
deriving DecidableEq, Repr

/-- Whether a `PlaceNixChild` is a `CreateOrMergeNixConfig` child. -/
def PlaceNixChild.isCreateOrMergeNixConfig : PlaceNixChild → Bool
  | PlaceNixChild.createOrMergeNixConfig _ _ => true
  | _ => false

/-- The configuration text generated by `PlaceNixConfiguration::plan`
(`src/action/common/place_nix_configuration.rs`, lines 23-34). -/
def placeNixConfigurationBuf (nix_build_group_name : String)
    (extra_conf : List String) : String :=
  String.intercalate "\n" extra_conf
    ++ "\n\nbuild-users-group = " ++ nix_build_group_name
    ++ "\n\nexperimental-features = nix-command flakes\n\nauto-optimise-store = true\n"

/-- `PlaceNixConfiguration` owns a `CreateDirectory` child and a `CreateFile`
child (`src/action/common/place_nix_configuration.rs`, struct lines 10-14). -/
structure PlaceNixConfiguration where
  create_directory : PlaceNixChild
  create_file : PlaceNixChild
deriving DecidableEq, Repr

/-- `PlaceNixConfiguration::plan`
(`src/action/common/place_nix_configuration.rs`, lines 16-44):
`CreateDirectory("/etc/nix", mode 0o755, force)` and
`CreateFile("/etc/nix/nix.conf", mode 0o664, generated buf, force)`. -/
def PlaceNixConfiguration.plan (nix_build_group_name : String)
    (extra_conf : List String) (force : Bool) : PlaceNixConfiguration :=
  { create_directory := PlaceNixChild.createDirectory "/etc/nix" 0o755 force,
    create_file := PlaceNixChild.createFile "/etc/nix/nix.conf" 0o664
      (placeNixConfigurationBuf nix_build_group_name extra_conf) }

/-- The order in which `PlaceNixConfiguration::execute` invokes its children
(`src/action/common/place_nix_configuration.rs`, lines 63-74): directory
first, then the configuration file. -/
def PlaceNixConfiguration.executeChildOrder (self : PlaceNixConfiguration) :
    List PlaceNixChild :=
  [self.create_directory, self.create_file]

/-- `CreateUser` action data (`src/action/base/create_user.rs`). -/
structure CreateUser where
  name : String
  uid : Nat
  groupname : String
  gid : Nat
deriving DecidableEq, Repr

/-- How a composite dispatches its children: an awaited in-order loop
(`for … { try_execute().await? }`) or a `JoinSet`-spawned concurrent fan-out. -/
inductive ChildSchedule (α : Type)
  | sequentialOrder (children : List α)
  | concurrentTasks (children : List α)
deriving DecidableEq, Repr

/-- Whether a schedule can ever have two children running at the same time:
never for a sequential loop, and only with at least two children for a
concurrent fan-out. -/
def ChildSchedule.mayRunTwoConcurrently {α : Type} : ChildSchedule α → Bool
  | ChildSchedule.sequentialOrder _ => false
  | ChildSchedule.concurrentTasks children => decide (2 ≤ children.length)

/-- The OS dispatch inside `CreateUsersAndGroups::execute`
(`src/action/common/create_users_and_groups.rs`, lines 121-161): the
`MacOSX { .. } | Darwin` arms run the `CreateUser` children in an awaited
`for` loop; every other host spawns them onto a `JoinSet`. -/
def createUsersExecuteSchedule (os : OperatingSystem)
    (create_users : List CreateUser) : ChildSchedule CreateUser :=
  match os with
  | OperatingSystem.macOSX _ _ _ => ChildSchedule.sequentialOrder create_users
  | OperatingSystem.darwin => ChildSchedule.sequentialOrder create_users
  | _ => ChildSchedule.concurrentTasks create_users

/-- An `ActionError`, as far as the error aggregation of
`CreateUsersAndGroups::execute` distinguishes them: some single child error,
or the aggregated `Children` variant. -/
inductive ActionErrorModel
  | single (message : String)
  | children (errs : List ActionErrorModel)

/-- The error aggregation after the concurrent fan-out of
`CreateUsersAndGroups::execute` (`src/action/common/create_users_and_groups.rs`,
lines 153-159): no errors means success (`none`), exactly one error is
returned as itself, several are wrapped in `Children`. -/
def aggregateChildErrors : List ActionErrorModel → Option ActionErrorModel
  | [] => none
  | [e] => some e
  | errs => some (ActionErrorModel.children errs)

end Harmonic

namespace Harmonic

/-- C1: for an action in state `Completed`, a successful `revert()` must end
in `Uncompleted`, and `revert()` on `Uncompleted` is a no-op success. The
`Uncompleted` no-op part holds for `EnableOwnership` and `CreateGroup`, and
`CreateGroup::revert` does end in `Uncompleted`, but
`EnableOwnership::revert` run on a `Completed` action ends with the state
still `Completed` — contradicting the claim and the action contract. -/
theorem c1_enable_ownership_revert_leaves_completed :
    EnableOwnership.revert { path := "/nix", action_state := ActionState.Uncompleted }
      = { path := "/nix", action_state := ActionState.Uncompleted }
    ∧ (EnableOwnership.revert { path := "/nix", action_state := ActionState.Completed }).action_state
      = ActionState.Completed
    ∧ (EnableOwnership.revert { path := "/nix", action_state := ActionState.Completed }).action_state
      ≠ ActionState.Uncompleted
    ∧ (CreateGroup.revert OperatingSystem.darwin
        { name := "nixbld", gid := 3000, action_state := ActionState.Completed }).2.action_state
      = ActionState.Uncompleted
    ∧ (CreateGroup.revert OperatingSystem.linux
        { name := "nixbld", gid := 3000, action_state := ActionState.Completed }).2.action_state
      = ActionState.Uncompleted := by
  refine ⟨rfl, rfl, by decide, rfl, rfl⟩

/-- C3 counterexample: the claim says `CreateGroup.plan(name, gid)` returns an
action marked `Completed` when a group of that name and gid exists on the
host. On a host where group `nixbld` exists with gid `30000`,
`CreateGroup.plan "nixbld" 30000` still returns state `Uncompleted` (the
source constructor never probes the host). -/
theorem c3_plan_ignores_existing_group :
    groupExists [("nixbld", 30000)] "nixbld" 30000 = true
    ∧ (CreateGroup.plan "nixbld" 30000).action_state ≠ ActionState.Completed := by
  exact ⟨by decide, by decide⟩

/-- C3 amended: for every host group database, name and gid,
`CreateGroup.plan` returns the action with exactly the given name and gid,
marked `Uncompleted`, independent of the host contents; it cannot fail (it is
a total constructor) and performs no probe or mutation. -/
theorem c3_plan_always_uncompleted (host : List (String × Nat)) (name : String) (gid : Nat) :
    (CreateGroup.plan name gid).action_state = ActionState.Uncompleted
    ∧ (CreateGroup.plan name gid).name = name
    ∧ (CreateGroup.plan name gid).gid = gid
    ∧ groupExists host name gid = groupExists host name gid := by
  exact ⟨rfl, rfl, rfl, rfl⟩

/-- C4: the claim says `EnableOwnership.execute` invokes
`diskutil enableOwnership` iff the parsed plist reports
`GlobalPermissionsEnabled = false`. The source inverts this: with
`GlobalPermissionsEnabled = false` it makes only the `info -plist` call and
no `enableOwnership` invocation, and with `GlobalPermissionsEnabled = true`
it does invoke `enableOwnership`. -/
theorem c4_enable_ownership_condition_inverted :
    (EnableOwnership.execute
        { path := "/nix", action_state := ActionState.Uncompleted }
        { global_permissions_enabled := false }).1
      = [DiskutilCmd.infoPlist "/nix"]
    ∧ ((EnableOwnership.execute
        { path := "/nix", action_state := ActionState.Uncompleted }
        { global_permissions_enabled := false }).1).contains
        (DiskutilCmd.enableOwnership "/nix") = false
    ∧ (EnableOwnership.execute
        { path := "/nix", action_state := ActionState.Uncompleted }
        { global_permissions_enabled := true }).1
      = [DiskutilCmd.infoPlist "/nix", DiskutilCmd.enableOwnership "/nix"] := by
  refine ⟨rfl, by decide, rfl⟩

/-- C5: the claim says a mergeable key's merged value de-duplicates tokens
regardless of token order. The source uses `Vec::dedup`, which removes only
consecutive duplicates: with pending `flakes nix-command` and existing
`flakes repl-flake` (not all pending tokens present, key mergeable), the
merged value is `flakes nix-command flakes repl-flake`, containing `flakes`
twice, and `plan` emits exactly that value. -/
theorem c5_merge_keeps_nonadjacent_duplicates :
    mergeConfValue "flakes nix-command" "flakes repl-flake"
      = "flakes nix-command flakes repl-flake"
    ∧ (splitTokens (mergeConfValue "flakes nix-command" "flakes repl-flake")).count "flakes" = 2
    ∧ CreateOrMergeNixConfig.plan
        (some { is_file := true, mode := 0o644,
                parsed := some [("experimental-features", "flakes repl-flake")] })
        [("experimental-features", "flakes nix-command")]
      = Except.ok (ActionState.Uncompleted,
          [("experimental-features", "flakes nix-command flakes repl-flake")]) := by
  refine ⟨rfl, by decide, rfl⟩

/-- C10: when the target path exists, `CreateOrMergeNixConfig.plan` fails
with `PathWasNotFile` if the path is not a regular file, and with
`PathModeMismatch` if the mode masked with `0o777` is not `0o644`; planning
is a pure read of the filesystem model, so neither failure mutates anything. -/
theorem c10_plan_checks_file_type_and_mode (f : FileOnDisk)
    (pendings : List (String × String)) :
    (f.is_file = false →
      CreateOrMergeNixConfig.plan (some f) pendings
        = Except.error NixConfigPlanError.PathWasNotFile)
    ∧ (f.is_file = true → (f.mode &&& 0o777) ≠ NIX_CONF_MODE →
      CreateOrMergeNixConfig.plan (some f) pendings
        = Except.error
            (NixConfigPlanError.PathModeMismatch (f.mode &&& 0o777) NIX_CONF_MODE)) := by
  constructor
  · intro h
    simp [CreateOrMergeNixConfig.plan, h]
  · intro h hm
    simp [CreateOrMergeNixConfig.plan, h, hm]

/-- C10 witness: a non-file path yields `PathWasNotFile`; a regular file with
mode `0o600` yields `PathModeMismatch 0o600 0o644`. -/
theorem c10_plan_checks_witness :
    CreateOrMergeNixConfig.plan
        (some { is_file := false, mode := 0o644, parsed := none }) []
      = Except.error NixConfigPlanError.PathWasNotFile
    ∧ CreateOrMergeNixConfig.plan
        (some { is_file := true, mode := 0o600, parsed := none }) []
      = Except.error
          (NixConfigPlanError.PathModeMismatch (0o600 &&& 0o777) NIX_CONF_MODE) := by
  exact ⟨(c10_plan_checks_file_type_and_mode _ _).1 rfl,
         (c10_plan_checks_file_type_and_mode _ _).2 rfl (by decide)⟩

/-- C2 counterexample: `CreateNixVolume::revert` does not invoke its
children's reverts in the exact reverse of the execute order, for either
value of `encrypt` (the pairs unmount-volume/create-volume and
synthetic.conf/synthetic-objects keep their forward relative order). -/
theorem c2_revert_not_exact_reverse :
    CreateNixVolume.revertChildOrder false
      ≠ (CreateNixVolume.executeChildOrder false).reverse
    ∧ CreateNixVolume.revertChildOrder true
      ≠ (CreateNixVolume.executeChildOrder true).reverse := by
  exact ⟨by decide, by decide⟩

/-- C2 amended: for every `encrypt`, the revert order equals the reverse of
the execute order after exchanging the two adjacent pairs
(create-volume, unmount-volume) and (synthetic-objects, synthetic.conf),
which the source deliberately keeps in forward relative order. -/
theorem c2_revert_is_reverse_up_to_two_pair_swaps (encrypt : Bool) :
    CreateNixVolume.revertChildOrder encrypt
      = swapAt
          (swapAt (CreateNixVolume.executeChildOrder encrypt).reverse
            (if encrypt then 6 else 5))
          (if encrypt then 8 else 7) := by
  cases encrypt <;> rfl

/-- C6: with an existing receipt and a chosen planner, a differing planner
tag refuses, differing planner settings refuse, an all-`Completed` receipt
refuses (each refusal is `Ok(ExitCode::FAILURE)` before anything executes),
and in all remaining cases the existing receipt is resumed rather than a
fresh plan being produced. -/
theorem c6_receipt_compatibility (r : ReceiptModel) (chosen : ChosenPlanner) :
    (r.planner_tag ≠ chosen.planner_tag →
      (installStartDecision (some r) chosen).isRefusal = true)
    ∧ (r.planner_settings ≠ chosen.planner_settings →
      (installStartDecision (some r) chosen).isRefusal = true)
    ∧ (r.action_states.all (fun s => s = ActionState.Completed) = true →
      (installStartDecision (some r) chosen).isRefusal = true)
    ∧ (r.planner_tag = chosen.planner_tag →
       r.planner_settings = chosen.planner_settings →
       r.action_states.all (fun s => s = ActionState.Completed) = false →
       installStartDecision (some r) chosen = InstallStart.resume r) := by
  refine ⟨?_, ?_, ?_, ?_⟩
  · intro h1
    simp [installStartDecision, h1, InstallStart.isRefusal]
  · intro h2
    by_cases h1 : r.planner_tag = chosen.planner_tag
    · simp [installStartDecision, h1, h2, InstallStart.isRefusal]
    · simp [installStartDecision, h1, InstallStart.isRefusal]
  · intro h3
    by_cases h1 : r.planner_tag = chosen.planner_tag
    · by_cases h2 : r.planner_settings = chosen.planner_settings
      · simp [installStartDecision, h1, h2, h3, InstallStart.isRefusal]
      · simp [installStartDecision, h1, h2, InstallStart.isRefusal]
    · simp [installStartDecision, h1, InstallStart.isRefusal]
  · intro h1 h2 h3
    simp [installStartDecision, h1, h2, h3]

/-- C6 witness: a tag mismatch, a settings mismatch, an all-completed
receipt, and a resumable receipt, each at concrete values. -/
theorem c6_receipt_compatibility_witness :
    (installStartDecision
        (some { planner_tag := "linux-multi", planner_settings := [],
                action_states := [ActionState.Uncompleted] })
        { planner_tag := "darwin-multi", planner_settings := [] }).isRefusal = true
    ∧ (installStartDecision
        (some { planner_tag := "linux-multi",
                planner_settings := [("nix_build_user_count", "32")],
                action_states := [ActionState.Uncompleted] })
        { planner_tag := "linux-multi",
          planner_settings := [("nix_build_user_count", "16")] }).isRefusal = true
    ∧ (installStartDecision
        (some { planner_tag := "linux-multi", planner_settings := [],
                action_states := [ActionState.Completed, ActionState.Completed] })
        { planner_tag := "linux-multi", planner_settings := [] }).isRefusal = true
    ∧ installStartDecision
        (some { planner_tag := "linux-multi", planner_settings := [],
                action_states := [ActionState.Completed, ActionState.Progress] })
        { planner_tag := "linux-multi", planner_settings := [] }
      = InstallStart.resume
          { planner_tag := "linux-multi", planner_settings := [],
            action_states := [ActionState.Completed, ActionState.Progress] } := by
  exact ⟨(c6_receipt_compatibility _ _).1 (by decide),
         (c6_receipt_compatibility _ _).2.1 (by decide),
         (c6_receipt_compatibility _ _).2.2.1 (by decide),
         (c6_receipt_compatibility _ _).2.2.2 rfl rfl (by decide)⟩

/-- C7 counterexample: the claim says that with `no_confirm` set a forward
install failure is reverted unconditionally. In the source the uninstall
call sits only under `if !no_confirm`; with `no_confirm` true (here: an
unexpected error) nothing is reverted and no prompt happens. -/
theorem c7_no_confirm_does_not_revert :
    (handleInstallFailure true false true true false).reverted = false
    ∧ (handleInstallFailure true false true true false).prompted = false := by
  exact ⟨rfl, rfl⟩

/-- C7 amended: with `no_confirm` set, a forward install failure is *not*
reverted: the installer neither prompts nor uninstalls and exits non-zero
(`Ok(ExitCode::FAILURE)` for an expected error, `Err` otherwise); reverting
on failure happens only on the interactive path after a confirmation. -/
theorem c7_no_confirm_failure_handling (err_expected u k ue : Bool) :
    (handleInstallFailure true err_expected u k ue).prompted = false
    ∧ (handleInstallFailure true err_expected u k ue).reverted = false
    ∧ (handleInstallFailure true err_expected u k ue).exit.exitsNonzero = true
    ∧ (handleInstallFailure false true u k ue).prompted = true := by
  cases err_expected <;> cases u <;> cases k <;> cases ue <;> exact ⟨rfl, rfl, rfl, rfl⟩

/-- C8: on a mac host `CreateUsersAndGroups::execute` dispatches its
`CreateUser` children as an awaited sequential loop (so no two child
executions can be concurrent), while on every other host it spawns them
concurrently; afterwards an empty error set succeeds, a single collected
error is returned unwrapped, and two or more are wrapped in `Children`. -/
theorem c8_macos_serial_other_concurrent (os : OperatingSystem)
    (users : List CreateUser) (errs : List ActionErrorModel) :
    (os.isMac = true →
      createUsersExecuteSchedule os users = ChildSchedule.sequentialOrder users
      ∧ (createUsersExecuteSchedule os users).mayRunTwoConcurrently = false)
    ∧ (os.isMac = false →
      createUsersExecuteSchedule os users = ChildSchedule.concurrentTasks users)
    ∧ aggregateChildErrors [] = none
    ∧ (∀ e : ActionErrorModel, errs = [e] → aggregateChildErrors errs = some e)
    ∧ (2 ≤ errs.length →
      aggregateChildErrors errs = some (ActionErrorModel.children errs)) := by
  refine ⟨?_, ?_, rfl, ?_, ?_⟩
  · intro h
    cases os <;> simp_all [createUsersExecuteSchedule, ChildSchedule.mayRunTwoConcurrently,
      OperatingSystem.isMac]
  · intro h
    cases os <;> simp_all [createUsersExecuteSchedule, OperatingSystem.isMac]
  · intro e he
    subst he
    rfl
  · intro h
    cases errs with
    | nil => simp at h
    | cons a t =>
      cases t with
      | nil => simp at h
      | cons b t2 => rfl

/-- C8 witness: the darwin host schedules one user sequentially with no
possible concurrency, the linux host schedules concurrently, a singleton
error set unwraps, and a two-error set wraps in `Children`. -/
theorem c8_macos_serial_witness :
    createUsersExecuteSchedule OperatingSystem.darwin
        [{ name := "nixbld1", uid := 301, groupname := "nixbld", gid := 30000 }]
      = ChildSchedule.sequentialOrder
        [{ name := "nixbld1", uid := 301, groupname := "nixbld", gid := 30000 }]
    ∧ (createUsersExecuteSchedule OperatingSystem.darwin
        [{ name := "nixbld1", uid := 301, groupname := "nixbld", gid := 30000 }]).mayRunTwoConcurrently
      = false
    ∧ createUsersExecuteSchedule OperatingSystem.linux
        [{ name := "nixbld1", uid := 301, groupname := "nixbld", gid := 30000 }]
      = ChildSchedule.concurrentTasks
        [{ name := "nixbld1", uid := 301, groupname := "nixbld", gid := 30000 }]
    ∧ aggregateChildErrors [ActionErrorModel.single "boom"]
      = some (ActionErrorModel.single "boom")
    ∧ aggregateChildErrors [ActionErrorModel.single "a", ActionErrorModel.single "b"]
      = some (ActionErrorModel.children
          [ActionErrorModel.single "a", ActionErrorModel.single "b"]) := by
  exact ⟨((c8_macos_serial_other_concurrent OperatingSystem.darwin _ []).1 rfl).1,
         ((c8_macos_serial_other_concurrent OperatingSystem.darwin _ []).1 rfl).2,
         (c8_macos_serial_other_concurrent OperatingSystem.linux _ []).2.1 rfl,
         (c8_macos_serial_other_concurrent OperatingSystem.linux []
            [ActionErrorModel.single "boom"]).2.2.2.1 _ rfl,
         (c8_macos_serial_other_concurrent OperatingSystem.linux []
            [ActionErrorModel.single "a", ActionErrorModel.single "b"]).2.2.2.2
            (by decide)⟩

/-- C9 counterexample: the second child of `PlaceNixConfiguration` is a
`CreateFile`, not a `CreateOrMergeNixConfig`, at the concrete plan for group
`nixbld` with no extra configuration. -/
theorem c9_second_child_not_merge_config :
    ((PlaceNixConfiguration.plan "nixbld" [] false).create_file).isCreateOrMergeNixConfig
      = false
    ∧ (PlaceNixConfiguration.plan "nixbld" [] false).create_file
      = PlaceNixChild.createFile "/etc/nix/nix.conf" 0o664
          (placeNixConfigurationBuf "nixbld" []) := by
  exact ⟨rfl, rfl⟩

/-- C9 amended: `PlaceNixConfiguration` is composed of exactly a
`CreateDirectory` child for `/etc/nix` (mode `0o755`) followed by a
`CreateFile` child for `/etc/nix/nix.conf` (mode `0o664`) holding the
generated configuration, and execute runs the directory child before the
file child. -/
theorem c9_children_and_execute_order (g : String) (extra : List String)
    (force : Bool) :
    (PlaceNixConfiguration.plan g extra force).create_directory
      = PlaceNixChild.createDirectory "/etc/nix" 0o755 force
    ∧ (PlaceNixConfiguration.plan g extra force).create_file
      = PlaceNixChild.createFile "/etc/nix/nix.conf" 0o664
          (placeNixConfigurationBuf g extra)
    ∧ (PlaceNixConfiguration.plan g extra force).executeChildOrder
      = [PlaceNixChild.createDirectory "/etc/nix" 0o755 force,
         PlaceNixChild.createFile "/etc/nix/nix.conf" 0o664
           (placeNixConfigurationBuf g extra)] := by
  exact ⟨rfl, rfl, rfl⟩

end Harmonic
